import Mathlib

/-!
Verification of the Procedural Star Field Renderer of the CosmicQuery
frontend (src/src/components/StarField.jsx), shallowly embedded over ℚ.
Random draws from the host environment (Math.random, values in [0,1)) are
modelled as a stream `u : ℕ → ℚ` of successive draw results.
-/

namespace CosmicQuery

/-- One axis component of a star position, as computed in StarField.jsx
line 12-14: `(Math.random() - 0.5) * 2000`, generalised over the
half-extent `e` (the source hardcodes `e = 1000`, so `2 * e = 2000`). -/
def starComponent (u e : ℚ) : ℚ :=
  (u - 0.5) * (2 * e)

/-- The `starPositions` buffer of StarField.jsx lines 9-17: a flat sequence
of `3 * n` axis components, where iteration `i` of the loop writes three
components from three successive random draws into slots `3*i`, `3*i+1`,
`3*i+2`.  The source hardcodes `n = 10000` and half-extent `1000`. -/
def starPositions (n : ℕ) (e : ℚ) (u : ℕ → ℚ) : List ℚ :=
  (List.range n).flatMap fun i =>
    [starComponent (u (3 * i)) e,
     starComponent (u (3 * i + 1)) e,
     starComponent (u (3 * i + 2)) e]

/-- The two Euler angles mutated by the per-frame callback
(`rotation.x`, `rotation.y` of the points object). -/
structure Rotation where
  x : ℚ
  y : ℚ
  deriving DecidableEq, Repr

/-- The camera configured on the Canvas in StarField.jsx:
`position [0, 0, 5]`, `fov 75`; never touched afterwards. -/
structure Camera where
  position : ℚ × ℚ × ℚ
  fov : ℚ
  deriving DecidableEq, Repr

/-- State of the Stars component: the ref to the points object (absent
before attachment or after teardown, otherwise holding its rotation),
the generated position buffer, and the host camera. -/
structure StarsState where
  starsRef : Option Rotation
  positions : List ℚ
  camera : Camera
  deriving DecidableEq, Repr

/-- The `useFrame` callback of StarField.jsx lines 20-25: if the ref is
attached, add 0.0002 to `rotation.y` and 0.0001 to `rotation.x`;
otherwise do nothing. -/
def frameCallback (s : StarsState) : StarsState :=
  match s.starsRef with
  | some r => { s with starsRef := some { x := r.x + 0.0001, y := r.y + 0.0002 } }
  | none => s

/-- `k` successive invocations of the per-frame callback. -/
def runFrames (k : ℕ) (s : StarsState) : StarsState :=
  match k with
  | 0 => s
  | Nat.succ j => frameCallback (runFrames j s)

/-- The camera as initialised by the Canvas element in StarField.jsx. -/
def defaultCamera : Camera :=
  { position := (0, 0, 5), fov := 75 }

/-- State of the mounted Stars component with an attached points object:
rotation starts at zero (Three.js object default), positions generated
once with count `n` and half-extent `e`. -/
def starsMounted (n : ℕ) (e : ℚ) (u : ℕ → ℚ) : StarsState :=
  { starsRef := some { x := 0, y := 0 }
    positions := starPositions n e u
    camera := defaultCamera }

/-- The mounted state with the source's hardcoded parameters
(`n = 10000`, half-extent `1000`). -/
def mountState (u : ℕ → ℚ) : StarsState :=
  starsMounted 10000 1000 u

/-- The `count` prop of the bufferAttribute in StarField.jsx line 31:
`starPositions.length / 3`. -/
def bufferAttributeCount (positions : List ℚ) : ℕ :=
  positions.length / 3

/-- The `itemSize` prop of the bufferAttribute in StarField.jsx line 33. -/
def bufferAttributeItemSize : ℕ := 3

/-- Modelled from the spec: the host frame scheduler (the
react-three-fiber Canvas render loop) is not part of src/; per spec
sections 4.2 and 7, the loop keeps invoking itself only while the render
surface is available, and once the surface becomes unavailable it stops
invoking itself instead of throwing.  `avail t` states that the render
surface is available at frame `t`; `loopAlive avail t` states that the
loop is still running at frame `t`. -/
def loopAlive (avail : ℕ → Bool) : ℕ → Bool
  | 0 => avail 0
  | Nat.succ t => loopAlive avail t && avail (t + 1)

/-- Modelled from the spec: a draw call is issued at frame `t` exactly
when the render loop is still alive at frame `t`. -/
def drawCallAt (avail : ℕ → Bool) (t : ℕ) : Bool :=
  loopAlive avail t

/-- Round a rational to the nearest integer, ties to even — the rounding
mode of IEEE-754 arithmetic. -/
def rnte (x : ℚ) : ℤ :=
  if x - ⌊x⌋ < 1 / 2 then ⌊x⌋
  else if 1 / 2 < x - ⌊x⌋ then ⌊x⌋ + 1
  else if ⌊x⌋ % 2 = 0 then ⌊x⌋ else ⌊x⌋ + 1

/-- Round a positive rational to the float32 grid of its binade: 24
significant bits, i.e. the nearest value `m * 2 ^ (e - 23)` with
`2 ^ 23 ≤ m ≤ 2 ^ 24` and `2 ^ e ≤ x < 2 ^ (e + 1)`. -/
def posRound (x : ℚ) : ℚ :=
  (rnte (x * (2 : ℚ) ^ (23 - Int.log 2 x)) : ℚ) * (2 : ℚ) ^ (Int.log 2 x - 23)

/-- The rounding performed when a value is stored into a `Float32Array`
slot (StarField.jsx line 10): round to nearest float32, ties to even.
The exponent range is modelled as unbounded (no overflow or subnormal
handling), which is faithful for every value in the float32 normal
range; all nonzero components arising here lie in it. -/
def float32Round (x : ℚ) : ℚ :=
  if x = 0 then 0
  else if 0 < x then posRound x
  else -posRound (-x)

/-- An axis component as it ends up stored in the `Float32Array` buffer:
the computed value `(u - 0.5) * 2 * e`, rounded by the float32 store.
The product itself is modelled exactly; for the draws used in the
theorems below the float64 computation of the product is exact, and
round-to-nearest float64 arithmetic never carries a product below 1000
past the representable value 1000, so the bounds proved here transfer. -/
def storedComponent (u e : ℚ) : ℚ :=
  float32Round (starComponent u e)

/-! ## Helper lemmas -/

/-- The generated buffer, flattened: component `m` is
`starComponent (u m) e`. -/
theorem starPositions_eq_map (n : ℕ) (e : ℚ) (u : ℕ → ℚ) :
    starPositions n e u = (List.range (3 * n)).map fun m => starComponent (u m) e := by
  induction n with
  | zero => rfl
  | succ j ih =>
    have h3 : 3 * (j + 1) = 3 * j + 1 + 1 + 1 := by ring
    rw [starPositions, List.range_succ, h3, List.range_succ, List.range_succ,
      List.range_succ]
    rw [starPositions] at ih
    simp only [List.flatMap_append, List.map_append, ih, List.flatMap_cons,
      List.flatMap_nil, List.map_cons, List.map_nil]
    simp

/-- The generated buffer always holds `3 * n` components. -/
theorem starPositions_length (n : ℕ) (e : ℚ) (u : ℕ → ℚ) :
    (starPositions n e u).length = 3 * n := by
  rw [starPositions_eq_map]
  simp

/-- The `m`-th component of the generated buffer. -/
theorem starPositions_getD (n : ℕ) (e : ℚ) (u : ℕ → ℚ) (m : ℕ) (hm : m < 3 * n) :
    (starPositions n e u).getD m 0 = starComponent (u m) e := by
  have hm3 : m < ((List.range (3 * n)).map fun m => starComponent (u m) e).length := by
    simpa using hm
  rw [starPositions_eq_map, List.getD_eq_getElem _ _ hm3]
  simp

/-- Range of one axis component for a draw in [0,1). -/
theorem starComponent_mem_Ico (u e : ℚ) (hu0 : 0 ≤ u) (hu1 : u < 1) (he : 0 < e) :
    -e ≤ starComponent u e ∧ starComponent u e < e := by
  unfold starComponent
  constructor
  · nlinarith
  · nlinarith

/-- Running frames never changes the positions buffer or the camera. -/
theorem runFrames_preserves (k : ℕ) (s : StarsState) :
    (runFrames k s).positions = s.positions ∧ (runFrames k s).camera = s.camera := by
  induction k with
  | zero => exact ⟨rfl, rfl⟩
  | succ j ih =>
    rw [runFrames]
    unfold frameCallback
    cases h : (runFrames j s).starsRef with
    | none => simpa [h] using ih
    | some r => simpa [h] using ih

/-- After `k` frames from an attached ref at rotation `(a, b)`, the ref
holds rotation `(a + k * 0.0001, b + k * 0.0002)`. -/
theorem runFrames_starsRef (k : ℕ) (s : StarsState) (a b : ℚ)
    (h : s.starsRef = some { x := a, y := b }) :
    (runFrames k s).starsRef = some { x := a + k * 0.0001, y := b + k * 0.0002 } := by
  induction k with
  | zero => simpa [runFrames] using h
  | succ j ih =>
    rw [runFrames, frameCallback, ih]
    simp only [Option.some.injEq, Rotation.mk.injEq]
    push_cast
    constructor <;> ring

/-- Once the surface is gone at frame `k`, the loop is no longer alive at
any frame `t ≥ k`. -/
theorem loopAlive_eq_false (avail : ℕ → Bool) (k t : ℕ) (h : avail k = false)
    (hkt : k ≤ t) : loopAlive avail t = false := by
  induction t with
  | zero =>
    have : k = 0 := Nat.le_zero.mp hkt
    subst this
    simpa [loopAlive] using h
  | succ j ih =>
    rcases Nat.lt_or_ge k (j + 1) with hlt | hge
    · have : k ≤ j := Nat.lt_succ_iff.mp hlt
      rw [loopAlive, ih this]
      simp
    · have : k = j + 1 := Nat.le_antisymm hkt hge
      subst this
      rw [loopAlive, h]
      simp

/-- Rounding never overshoots an integer upper bound. -/
theorem rnte_le (y : ℚ) (z : ℤ) (h : y ≤ (z : ℚ)) : rnte y ≤ z := by
  have hf : ⌊y⌋ ≤ z := by
    have := Int.floor_le_floor h
    rwa [Int.floor_intCast] at this
  have hsucc : ¬ y - ⌊y⌋ < 1 / 2 → ⌊y⌋ + 1 ≤ z := by
    intro hge
    rcases lt_or_eq_of_le hf with hlt | heq
    · omega
    · exfalso
      apply hge
      have hle : y - (⌊y⌋ : ℚ) ≤ 0 := by
        rw [heq]
        linarith
      linarith
  unfold rnte
  split_ifs with h1 h2 h3
  · exact hf
  · exact hsucc h1
  · exact hf
  · exact hsucc h1

/-- Rounding never undershoots an integer lower bound. -/
theorem le_rnte (y : ℚ) (z : ℤ) (h : (z : ℚ) ≤ y) : z ≤ rnte y := by
  have hf : z ≤ ⌊y⌋ := Int.le_floor.mpr h
  unfold rnte
  split_ifs <;> omega

/-- Rounding an integer is the identity. -/
theorem rnte_intCast (z : ℤ) : rnte (z : ℚ) = z := by
  unfold rnte
  rw [Int.floor_intCast]
  norm_num

/-- A positive value below 1000 never rounds above 1000 on the float32
grid (1000 is itself representable in float32). -/
theorem posRound_le (x : ℚ) (hx : 0 < x) (hlt : x < 1000) : posRound x ≤ 1000 := by
  have he9 : Int.log 2 x < 10 := by
    rw [← Int.lt_zpow_iff_log_lt (by norm_num) hx]
    have h10 : ((2 : ℕ) : ℚ) ^ (10 : ℤ) = 1024 := by
      norm_num
    rw [h10]
    linarith
  have hk : (0 : ℤ) ≤ 23 - Int.log 2 x := by omega
  have hpowpos : (0 : ℚ) < (2 : ℚ) ^ (23 - Int.log 2 x) := zpow_pos (by norm_num) _
  have hcast : ((1000 * 2 ^ (23 - Int.log 2 x).toNat : ℤ) : ℚ)
      = 1000 * (2 : ℚ) ^ (23 - Int.log 2 x) := by
    push_cast
    rw [← zpow_natCast (2 : ℚ) (23 - Int.log 2 x).toNat, Int.toNat_of_nonneg hk]
  have h1 : x * (2 : ℚ) ^ (23 - Int.log 2 x)
      ≤ ((1000 * 2 ^ (23 - Int.log 2 x).toNat : ℤ) : ℚ) := by
    rw [hcast]
    nlinarith
  have h2 := rnte_le _ _ h1
  have h3 : ((rnte (x * (2 : ℚ) ^ (23 - Int.log 2 x)) : ℤ) : ℚ)
      ≤ ((1000 * 2 ^ (23 - Int.log 2 x).toNat : ℤ) : ℚ) := by
    exact_mod_cast h2
  have h4 : (0 : ℚ) ≤ (2 : ℚ) ^ (Int.log 2 x - 23) := le_of_lt (zpow_pos (by norm_num) _)
  have hzero : (23 - Int.log 2 x) + (Int.log 2 x - 23) = (0 : ℤ) := by ring
  calc posRound x
      = (rnte (x * (2 : ℚ) ^ (23 - Int.log 2 x)) : ℚ) * (2 : ℚ) ^ (Int.log 2 x - 23) := rfl
    _ ≤ ((1000 * 2 ^ (23 - Int.log 2 x).toNat : ℤ) : ℚ) * (2 : ℚ) ^ (Int.log 2 x - 23) :=
        mul_le_mul_of_nonneg_right h3 h4
    _ = 1000 * ((2 : ℚ) ^ (23 - Int.log 2 x) * (2 : ℚ) ^ (Int.log 2 x - 23)) := by
        rw [hcast]
        ring
    _ = 1000 := by
        rw [← zpow_add₀ (by norm_num : (2 : ℚ) ≠ 0), hzero, zpow_zero, mul_one]

/-- Rounding a positive value on the float32 grid stays nonnegative. -/
theorem posRound_nonneg (x : ℚ) (hx : 0 < x) : 0 ≤ posRound x := by
  have hy : (0 : ℚ) ≤ x * (2 : ℚ) ^ (23 - Int.log 2 x) :=
    le_of_lt (mul_pos hx (zpow_pos (by norm_num) _))
  have h0 : (0 : ℤ) ≤ rnte (x * (2 : ℚ) ^ (23 - Int.log 2 x)) :=
    le_rnte _ 0 (by exact_mod_cast hy)
  exact mul_nonneg (by exact_mod_cast h0) (le_of_lt (zpow_pos (by norm_num) _))

/-- 1000 is exactly representable in float32, so it rounds to itself. -/
theorem posRound_1000 : posRound 1000 = 1000 := by
  have hlog : Int.log 2 (1000 : ℚ) = 9 := by
    have h1 : (9 : ℤ) ≤ Int.log 2 (1000 : ℚ) := by
      rw [← Int.zpow_le_iff_le_log (by norm_num) (by norm_num)]
      norm_num
    have h2 : Int.log 2 (1000 : ℚ) < 10 := by
      rw [← Int.lt_zpow_iff_log_lt (by norm_num) (by norm_num)]
      norm_num
    omega
  unfold posRound
  rw [hlog]
  have harg : (1000 : ℚ) * (2 : ℚ) ^ ((23 : ℤ) - 9) = ((16384000 : ℤ) : ℚ) := by
    norm_num
  rw [harg, rnte_intCast]
  norm_num

/-- The float32 store maps `[-1000, 1000)` into the closed interval
`[-1000, 1000]`. -/
theorem float32Round_bounds (x : ℚ) (h1 : -1000 ≤ x) (h2 : x < 1000) :
    -1000 ≤ float32Round x ∧ float32Round x ≤ 1000 := by
  unfold float32Round
  split_ifs with hz hpos
  · norm_num
  · have hub := posRound_le x hpos h2
    have hnn := posRound_nonneg x hpos
    constructor <;> linarith
  · have hneg : 0 < -x := by
      rcases lt_trichotomy x 0 with h | h | h
      · linarith
      · exact absurd h hz
      · exact absurd h hpos
    have hub : posRound (-x) ≤ 1000 := by
      rcases eq_or_lt_of_le (by linarith : -x ≤ 1000) with he | hlt
      · rw [he]
        exact le_of_eq posRound_1000
      · exact posRound_le (-x) hneg hlt
    have hnn := posRound_nonneg (-x) hneg
    constructor <;> linarith

/-- The exact product at the draw `1 - 2 ^ (-30)`. -/
theorem starComponent_u0 :
    starComponent ((1073741823 : ℚ) / 1073741824) 1000 = 67108863875 / 67108864 := by
  unfold starComponent
  norm_num

/-- The binade of the product: it lies in `[512, 1024)`. -/
theorem log_x0 : Int.log 2 ((67108863875 : ℚ) / 67108864) = 9 := by
  have h1 : (9 : ℤ) ≤ Int.log 2 ((67108863875 : ℚ) / 67108864) := by
    rw [← Int.zpow_le_iff_le_log (by norm_num) (by norm_num)]
    norm_num
  have h2 : Int.log 2 ((67108863875 : ℚ) / 67108864) < 10 := by
    rw [← Int.lt_zpow_iff_log_lt (by norm_num) (by norm_num)]
    norm_num
  omega

/-- The scaled mantissa rounds up to 16384000 (fraction 3971/4096 > 1/2). -/
theorem rnte_y0 : rnte ((67108863875 : ℚ) / 4096) = 16384000 := by
  have hfloor : ⌊(67108863875 : ℚ) / 4096⌋ = 16383999 := by
    rw [Int.floor_eq_iff]
    norm_num
  unfold rnte
  rw [hfloor]
  split_ifs with hc1 hc2
  · exfalso
    norm_num at hc1
  · norm_num
  · exfalso
    apply hc2
    norm_num
  · exfalso
    apply hc2
    norm_num

/-- The float32 store rounds the product at draw `1 - 2 ^ (-30)` up to
exactly 1000. -/
theorem storedComponent_u0 :
    storedComponent ((1073741823 : ℚ) / 1073741824) 1000 = 1000 := by
  unfold storedComponent
  rw [starComponent_u0]
  unfold float32Round
  rw [if_neg (by norm_num), if_pos (by norm_num)]
  unfold posRound
  rw [log_x0]
  have harg : (67108863875 : ℚ) / 67108864 * (2 : ℚ) ^ ((23 : ℤ) - 9) = 67108863875 / 4096 := by
    norm_num
  rw [harg, rnte_y0]
  norm_num

/-- The store keeps the exact value -1000 (draw 0). -/
theorem storedComponent_zero_draw : storedComponent 0 1000 = -1000 := by
  unfold storedComponent
  have hval : starComponent 0 1000 = -1000 := by
    unfold starComponent
    norm_num
  rw [hval]
  unfold float32Round
  rw [if_neg (by norm_num), if_neg (by norm_num)]
  norm_num [posRound_1000]


/-! ## Claim theorems -/

/-- C1: with the default parameters (count 10000, half-extent 1000) the
generator produces exactly 10000 coordinate triples (30000 axis
components), and the m-th component equals `(u m - 0.5) * 2 * 1000` for
the m-th independent uniform draw `u m`. -/
theorem starPositions_default_generation (u : ℕ → ℚ) :
    (starPositions 10000 1000 u).length = 3 * 10000 ∧
      ∀ m : ℕ, m < 3 * 10000 →
        (starPositions 10000 1000 u).getD m 0 = (u m - 0.5) * (2 * 1000) := by
  refine ⟨starPositions_length _ _ _, fun m hm => ?_⟩
  rw [starPositions_getD 10000 1000 u m hm]
  rfl

/-- Witness for C1 at draw stream constantly 0 and component index 0. -/
theorem starPositions_default_generation_witness :
    (starPositions 10000 1000 fun _ => 0).getD 0 0 = ((0 : ℚ) - 0.5) * (2 * 1000) :=
  (starPositions_default_generation fun _ => 0).2 0 (by norm_num)

/-- C2: every axis component of the generated cloud (half-extent 1000)
lies in the closed interval [-1000, 1000], and the bound persists for the
stored positions after any number k of frame callbacks, since the
callback never rewrites the buffer. -/
theorem positions_bounds_invariant (n k : ℕ) (u : ℕ → ℚ)
    (hu : ∀ j : ℕ, 0 ≤ u j ∧ u j < 1) :
    ∀ x ∈ (runFrames k (starsMounted n 1000 u)).positions,
      -1000 ≤ x ∧ x ≤ 1000 := by
  intro x hx
  rw [(runFrames_preserves k _).1] at hx
  simp only [starsMounted] at hx
  rw [starPositions_eq_map] at hx
  rcases List.mem_map.mp hx with ⟨m, _, rfl⟩
  have h := starComponent_mem_Ico (u m) 1000 (hu m).1 (hu m).2 (by norm_num)
  exact ⟨h.1, le_of_lt h.2⟩

/-- Witness for C2: with one star and the constant-zero draw stream the
stored component -1000 obeys the bounds. -/
theorem positions_bounds_invariant_witness :
    -1000 ≤ (-1000 : ℚ) ∧ (-1000 : ℚ) ≤ 1000 :=
  positions_bounds_invariant 1 0 (fun _ => 0) (fun _ => by norm_num) (-1000)
    (by simp [runFrames, starsMounted, starPositions, starComponent]; norm_num)

/-- C3: for every count n the generated cloud holds exactly n coordinate
triples (3 * n components); with the defaults the buffer holds 30000
floats and the declared bufferAttribute count is its length divided by 3,
namely 10000. -/
theorem pointCloud_count_invariant :
    (∀ (n : ℕ) (e : ℚ) (u : ℕ → ℚ), (starPositions n e u).length = 3 * n) ∧
      ∀ u : ℕ → ℚ,
        (starPositions 10000 1000 u).length = 30000 ∧
          bufferAttributeCount (starPositions 10000 1000 u) =
            (starPositions 10000 1000 u).length / 3 ∧
          bufferAttributeCount (starPositions 10000 1000 u) = 10000 := by
  refine ⟨fun n e u => starPositions_length n e u, fun u => ?_⟩
  have h := starPositions_length 10000 1000 u
  refine ⟨by simpa using h, rfl, ?_⟩
  rw [bufferAttributeCount, h]

/-- C4: from zero orientation at mount, after k frame callbacks the
vertical-axis angle (rotation.y) is exactly k * 0.0002 and the
horizontal-axis angle (rotation.x) is exactly k * 0.0001 (the stored
value is the exact accumulation, hence trivially equal to itself modulo
a full turn); at k = 60 the angles are 0.012 and 0.006 exactly in the
rational model. -/
theorem orientation_monotonic_drift (u : ℕ → ℚ) :
    (∀ k : ℕ, (runFrames k (mountState u)).starsRef =
        some { x := (k : ℚ) * 0.0001, y := (k : ℚ) * 0.0002 }) ∧
      (runFrames 60 (mountState u)).starsRef = some { x := 0.006, y := 0.012 } := by
  have h : ∀ k : ℕ, (runFrames k (mountState u)).starsRef =
      some { x := (k : ℚ) * 0.0001, y := (k : ℚ) * 0.0002 } := by
    intro k
    simpa using runFrames_starsRef k (mountState u) 0 0 rfl
  refine ⟨h, ?_⟩
  rw [h 60]
  norm_num

/-- C5: a frame callback rewrites neither the position buffer nor the
camera, and preserves whether the ref is attached; over any k frames the
positions and camera are exactly the initial ones. -/
theorem frameCallback_mutates_only_orientation (s : StarsState) (k : ℕ) :
    (frameCallback s).positions = s.positions ∧
      (frameCallback s).camera = s.camera ∧
      (frameCallback s).starsRef.isSome = s.starsRef.isSome ∧
      (runFrames k s).positions = s.positions ∧
      (runFrames k s).camera = s.camera := by
  refine ⟨?_, ?_, ?_, (runFrames_preserves k s).1, (runFrames_preserves k s).2⟩ <;>
    cases h : s.starsRef <;> simp [frameCallback, h]

/-- C6 (render loop modelled from the spec, see `loopAlive`): if the
render surface is unavailable at frame k, no draw call is issued at frame
k or any later frame — the loop stops invoking itself; the model is a
total function, so no exception propagates. -/
theorem renderLoop_stops_after_surface_loss (avail : ℕ → Bool) (k : ℕ)
    (h : avail k = false) : ∀ t : ℕ, k ≤ t → drawCallAt avail t = false :=
  fun t ht => loopAlive_eq_false avail k t h ht

/-- Witness for C6: surface lost at frame 0, so frame 3 issues no draw. -/
theorem renderLoop_stops_after_surface_loss_witness :
    drawCallAt (fun _ => false) 3 = false :=
  renderLoop_stops_after_surface_loss (fun _ => false) 0 rfl 3 (by norm_num)

/-- C7: generation with count 0 yields the empty (still valid) buffer,
and generation is a total function yielding 3 * n components for every
count n. -/
theorem starPositions_zero_empty (e : ℚ) (u : ℕ → ℚ) :
    starPositions 0 e u = [] ∧ ∀ n : ℕ, (starPositions n e u).length = 3 * n :=
  ⟨rfl, fun n => starPositions_length n e u⟩

/-- Counterexample to C8 as stated: at the valid draw `1 - 2 ^ (-30)`
(exactly representable in float64, inside [0,1)) the exact product is
`1000 - 125 * 2 ^ (-26)`, within half a float32 ulp of 1000, so the
`Float32Array` store rounds it to exactly +1000 — the upper endpoint IS
produced by the program. -/
theorem storedComponent_hits_upper_endpoint :
    (0 ≤ (1073741823 : ℚ) / 1073741824 ∧ (1073741823 : ℚ) / 1073741824 < 1) ∧
      storedComponent ((1073741823 : ℚ) / 1073741824) 1000 = 1000 :=
  ⟨⟨by norm_num, by norm_num⟩, storedComponent_u0⟩

/-- C8 amended: for a uniform draw in [0,1) the exact product
`(u - 0.5) * 2000` lies in the half-open interval [-1000, 1000), and the
lower endpoint -1000 is attained at draw 0 and survives the float32
store; but the `Float32Array` store rounds to the float32 grid, so the
stored components range over the closed interval [-1000, 1000], and the
upper endpoint +1000 is attained for some draw in [0,1). -/
theorem starComponent_store_closed_range :
    (∀ u : ℚ, 0 ≤ u → u < 1 →
        -1000 ≤ starComponent u 1000 ∧ starComponent u 1000 < 1000) ∧
      starComponent 0 1000 = -1000 ∧
      storedComponent 0 1000 = -1000 ∧
      (∃ u : ℚ, 0 ≤ u ∧ u < 1 ∧ storedComponent u 1000 = 1000) ∧
      ∀ u : ℚ, 0 ≤ u → u < 1 →
        -1000 ≤ storedComponent u 1000 ∧ storedComponent u 1000 ≤ 1000 := by
  refine ⟨fun u h0 h1 => starComponent_mem_Ico u 1000 h0 h1 (by norm_num),
    by norm_num [starComponent], storedComponent_zero_draw,
    ⟨(1073741823 : ℚ) / 1073741824, by norm_num, by norm_num, storedComponent_u0⟩,
    fun u h0 h1 => ?_⟩
  have hx := starComponent_mem_Ico u 1000 h0 h1 (by norm_num)
  exact float32Round_bounds (starComponent u 1000) hx.1 hx.2

/-- Witness for C8 amended, at the draw 1/2 (stored component 0). -/
theorem starComponent_store_closed_range_witness :
    -1000 ≤ storedComponent (1 / 2) 1000 ∧ storedComponent (1 / 2) 1000 ≤ 1000 :=
  starComponent_store_closed_range.2.2.2.2 (1 / 2) (by norm_num) (by norm_num)

/-- C9: when the points ref is absent the frame callback changes nothing
at all and returns normally (it is a total function). -/
theorem frameCallback_none_ref_noop (s : StarsState) (h : s.starsRef = none) :
    frameCallback s = s := by
  simp [frameCallback, h]

/-- Witness for C9 on a concrete detached state. -/
theorem frameCallback_none_ref_noop_witness :
    frameCallback { starsRef := none, positions := [], camera := defaultCamera } =
      { starsRef := none, positions := [], camera := defaultCamera } :=
  frameCallback_none_ref_noop _ rfl

/-- C10: the orientation after k frames does not depend on the random
draw streams that generated the positions — two runs with different
sampled clouds have identical orientation state. -/
theorem orientation_independent_of_positions (v w : ℕ → ℚ) (k : ℕ) :
    (runFrames k (mountState v)).starsRef = (runFrames k (mountState w)).starsRef := by
  rw [runFrames_starsRef k (mountState v) 0 0 rfl,
    runFrames_starsRef k (mountState w) 0 0 rfl]

end CosmicQuery
